import Mathlib

/-!
Verification development for the surveyIA repository: a shallow embedding of
the AI generation orchestration layer (provider routing, Gemini model
fallback, rate-limit tracking, prompt building, streaming tool-call
interception, and the SSE relay), with theorems settling the listed claims.

Conventions of the embedding:
- Machine time is a Nat of milliseconds (Date.now()).
- JavaScript exceptions become the error side of Except with a String message.
- Network calls are abstracted as oracle functions passed in as arguments;
  the code under verification is everything around them.
- An async generator that can fail mid-iteration is modelled as a pair of
  the fragments it yields and an optional terminal error.
- Functions additionally return attempt traces (which models or providers
  were called, in order) mirroring the per-attempt log statements of the
  source, so that claims about dispatch order are statable.
-/

namespace SurveyIA

/-- JavaScript || on optional strings: an absent value or the empty string
falls through to the right operand (the empty string is falsy in JS). -/
def jsOrStr : Option String → Option String → Option String
  | some s, b => if s = "" then b else some s
  | none, b => b

/-- JavaScript || on optional objects: only an absent value falls through
(every object, including an empty mapping, is truthy in JS). -/
def jsOrObj {α : Type} : Option α → Option α → Option α
  | some a, _ => some a
  | none, b => b

/-- Boolean prefix test on character lists. -/
def charListPrefix : List Char → List Char → Bool
  | [], _ => true
  | _ :: _, [] => false
  | a :: as, b :: bs => a = b && charListPrefix as bs

/-- Boolean infix test on character lists. -/
def charListInfix (pat : List Char) : List Char → Bool
  | [] => charListPrefix pat []
  | c :: rest => charListPrefix pat (c :: rest) || charListInfix pat rest

/-- Substring containment, the embedding of the JS String.prototype.includes. -/
def strContains (s pat : String) : Bool := charListInfix pat.data s.data

/-- ASCII lowercasing, the embedding of String.prototype.toLowerCase on the
ASCII vocabulary the routing heuristic uses. -/
def jsToLower (s : String) : String := ⟨s.data.map Char.toLower⟩

/-- String mappings stand in for the open JSON objects (demographics,
preferences, tool arguments) that the source passes around untyped. -/
abbrev StrMap : Type := List (String × String)

/-- Abstraction of JSON.stringify on a string mapping: a deterministic
rendering that starts with an opening brace. Only determinism and shape
matter for the claims; the exact JSON escaping is not modelled. -/
def stringifyMap (m : StrMap) : String :=
  "\x7b" ++ String.intercalate ", " (m.map (fun kv => kv.1 ++ ": " ++ kv.2)) ++ "\x7d"

/-! ## src/server/prompts-i18n.ts -/

namespace PromptsI18n

open SurveyIA

/-- Embedding of the untyped profile value reaching buildProfileContext and
getSystemPrompt. A field holding some m is a present (hence truthy) JSON
object with entries m; none is an absent or null field. The tone lives in
the preferences mapping in the source; it is mirrored here as the lookup
of the key tone. -/
structure Profile where
  demographics : Option StrMap
  preferences : Option StrMap
  deriving DecidableEq

/-- Lookup of preferences.tone as the source reads it (absent preferences
or absent key give undefined, modelled as none; empty string is falsy). -/
def profileTone (p : Profile) : Option String :=
  match p.preferences with
  | none => none
  | some prefs =>
    match prefs.lookup "tone" with
    | none => none
    | some t => if t = "" then none else some t

/-- Sections array built by buildProfileContext: one labeled block per
present field, in source order (demographics then preferences). The source
guard is plain JS truthiness of the field, so a present-but-empty mapping
still yields its block. -/
def profileSections (p : Profile) : List String :=
  (match p.demographics with
   | some d => ["Demografía: " ++ stringifyMap d]
   | none => []) ++
  (match p.preferences with
   | some pr => ["Preferencias: " ++ stringifyMap pr]
   | none => [])

/-- Embedding of buildProfileContext: the sections joined by blank lines. -/
def buildProfileContext (p : Profile) : String :=
  String.intercalate "\n\n" (profileSections p)

/-- Template of the system prompt, abbreviated to its structural skeleton:
the placeholders occur exactly once each, in the same relative positions as
in SYSTEM_PROMPTS of the source. -/
def systemPromptTemplate : String :=
  "PERFIL DEL USUARIO:\n\x7bprofileContext\x7d\n\nTono: \x7btone\x7d\n\nPregunta:"

/-- Embedding of getSystemPrompt: fills the template with the profile
context and the tone, defaulting the tone to Professional. The source
replaces the first occurrence of each placeholder; each occurs once. -/
def getSystemPrompt (p : Profile) : String :=
  let profileContext := buildProfileContext p
  let tone := (profileTone p).getD "Professional"
  (systemPromptTemplate.replace "\x7bprofileContext\x7d" profileContext).replace
    "\x7btone\x7d" tone

end PromptsI18n

/-! ## src/server/tool-handlers.ts -/

namespace ToolHandlers

open SurveyIA

/-- Tool names with a dedicated case in handleToolCall. -/
def knownTools : List String :=
  ["web_search", "vision", "code_execution", "url_context", "file_tools", "browser"]

/-- Embedding of handleToolCall: a total function from tool name and
argument mapping to a result string. The default case echoes the unknown
name and the stringified arguments; no branch can fail. Literal quote
characters of the source messages are elided. -/
def handleToolCall (name : String) (args : StrMap) : String :=
  match name with
  | "web_search" =>
    let q := (jsOrStr (args.lookup "query") (jsOrStr (args.lookup "q") none)).getD
      (stringifyMap args)
    "Simulated web search results for query: " ++ q.take 400
  | "vision" =>
    let info :=
      match args.lookup "image_data" with
      | some d => "image(" ++ d.take 64 ++ "...)"
      | none => "image"
    "Simulated vision analysis for " ++ info ++ ": detected objects: [person, text, logo]."
  | "code_execution" =>
    let code := (args.lookup "code").getD ""
    "Simulated code execution. Code length: " ++ toString code.length ++
      " chars. Output: <simulation>"
  | "url_context" =>
    let url := (args.lookup "url").getD ""
    "Simulated fetch of " ++ url ++ ": returned page title Example Page and snippet ..."
  | "file_tools" =>
    let fid := (args.lookup "file_id").getD "unknown"
    "Simulated file processing for file " ++ fid ++ ": extracted 120 words."
  | "browser" =>
    let url2 := (args.lookup "url").getD ""
    "Simulated browser retrieval for " ++ url2 ++ ": rendered text length 1024."
  | _ => "Tool " ++ name ++ " called with args: " ++ stringifyMap args

end ToolHandlers

/-! ## src/server/gemini-service.ts (adapter without rate-limit tracking) -/

namespace GeminiService

open SurveyIA

/-- Ordered fallback model list GEMINI_MODELS of the adapter. -/
def GEMINI_MODELS : List String :=
  ["gemini-3-flash-preview", "gemini-2.5-pro", "gemini-2.5-flash", "gemini-2.5-flash-lite"]

/-- Raw outcome of one generateContent call once it returns: the joined
text of the first candidate parts (empty when absent), the optional
thinking part, and the usage metadata counters. -/
structure GeminiRaw where
  text : String
  thinking : Option String
  inputTokens : Option Nat
  outputTokens : Option Nat
  deriving DecidableEq

/-- Result shape returned by generateGeminiResponse. -/
structure GeminiResponse where
  text : String
  model : String
  thinking : Option String
  inputTokens : Option Nat
  outputTokens : Option Nat
  deriving DecidableEq

/-- Message of the error thrown when a model answers with empty text. -/
def noTextMsg (model : String) : String := "No text response from " ++ model

/-- Message of the generic error thrown when no failure was recorded. -/
def allFailedMsg : String :=
  "All Gemini models failed. Please check your API key and rate limits."

/-- Failure classification of one attempt: the message stored into
lastError when the attempt fails (a thrown error, or the empty-text
error), none when the attempt succeeds with non-empty text. -/
def attemptFailure (call : String → Except String GeminiRaw) (m : String) : Option String :=
  match call m with
  | Except.error e => some e
  | Except.ok raw => if raw.text = "" then some (noTextMsg m) else none

/-- Response assembled on success: thinking is surfaced only when the
request set includeThinking. -/
def mkResponse (includeThinking : Bool) (m : String) (raw : GeminiRaw) : GeminiResponse :=
  { text := raw.text, model := m,
    thinking := if includeThinking then raw.thinking else none,
    inputTokens := raw.inputTokens, outputTokens := raw.outputTokens }

/-- Core fallback loop of generateGeminiResponse over the remaining model
list, carrying lastError; also returns the list of models attempted, in
order, mirroring the per-attempt log lines. -/
def runModels (call : String → Except String GeminiRaw) (includeThinking : Bool) :
    List String → Option String → Except String GeminiResponse × List String
  | [], last => (Except.error (last.getD allFailedMsg), [])
  | m :: rest, last =>
    match call m with
    | Except.error e =>
      let r := runModels call includeThinking rest (some e)
      (r.1, m :: r.2)
    | Except.ok raw =>
      if raw.text = "" then
        let r := runModels call includeThinking rest (some (noTextMsg m))
        (r.1, m :: r.2)
      else
        (Except.ok (mkResponse includeThinking m raw), [m])

/-- Embedding of generateGeminiResponse: the fallback loop started on the
full model list with no recorded failure. -/
def generateGeminiResponse (call : String → Except String GeminiRaw)
    (includeThinking : Bool) : Except String GeminiResponse × List String :=
  runModels call includeThinking GEMINI_MODELS none

/-- Behaviour of one model inside streamGeminiResponse: the chunk texts the
upstream stream produces in order, then either clean exhaustion (none) or a
thrown error (some message). An error thrown while acquiring the stream is
the case chunks = [] with a failure. -/
structure StreamBehavior where
  chunks : List String
  failure : Option String
  deriving DecidableEq

/-- Fragments actually yielded for one model: the code skips chunks whose
joined text is empty. -/
def yieldedOf (b : StreamBehavior) : List String := b.chunks.filter (fun c => decide (c ≠ ""))

/-- Message of the generic error thrown when the streaming loop recorded
no failure. -/
def allStreamFailedMsg : String := "All streaming models failed"

/-- Core loop of streamGeminiResponse: for each model, yield its non-empty
chunks; on clean exhaustion stop; on a thrown error (at acquisition or
mid-iteration) record it and move to the next model. The first component
is every fragment yielded to the caller in order; the second is the error
the generator finally throws, when every model failed. -/
def runStream (scall : String → StreamBehavior) :
    List String → Option String → List String × Option String
  | [], last => ([], some (last.getD allStreamFailedMsg))
  | m :: rest, last =>
    let b := scall m
    match b.failure with
    | none => (yieldedOf b, none)
    | some e =>
      let r := runStream scall rest (some e)
      (yieldedOf b ++ r.1, r.2)

/-- Embedding of streamGeminiResponse started on the full model list. -/
def streamGeminiResponse (scall : String → StreamBehavior) : List String × Option String :=
  runStream scall GEMINI_MODELS none

/-- Models attempted by the streaming loop: every model up to and
including the first one whose stream ends cleanly. -/
def attemptedStreamModels (scall : String → StreamBehavior) : List String → List String
  | [] => []
  | m :: rest =>
    if (scall m).failure.isSome then m :: attemptedStreamModels scall rest else [m]

end GeminiService

/-! ## src/unnamed/part_015 (gemini service variant with rate-limit tracking) -/

namespace GeminiServiceRL

open SurveyIA

/-- Ordered fallback model list GEMINI_MODELS of this variant. -/
def GEMINI_MODELS : List String :=
  ["gemini-3-flash-preview", "gemini-2.5-flash", "gemini-2.5-pro",
   "gemini-2.5-flash-lite", "gemini-2.0-flash"]

/-- Entry of the in-memory rateLimitTracker map. -/
structure RateLimitInfo where
  model : String
  nextAvailableTime : Nat
  retryAfterSeconds : Option Nat
  deriving DecidableEq

/-- The rateLimitTracker Map, as an association list where set shadows the
older binding. -/
abbrev Tracker : Type := List (String × RateLimitInfo)

/-- Map.get of the tracker. -/
def trackerGet (tr : Tracker) (m : String) : Option RateLimitInfo := tr.lookup m

/-- Predicate keeping the entries of every key other than m. -/
def keyNe (m : String) (kv : String × RateLimitInfo) : Bool := decide (kv.1 ≠ m)

/-- Map.set of the tracker. -/
def trackerSet (tr : Tracker) (m : String) (info : RateLimitInfo) : Tracker :=
  (m, info) :: tr.filter (keyNe m)

/-- Map.delete of the tracker. -/
def trackerDelete (tr : Tracker) (m : String) : Tracker :=
  tr.filter (keyNe m)

/-- Error value thrown by a model call: its message, the optional HTTP
status of error.response, and the parsed seconds of the retry-after
response header when present. -/
structure GeminiError where
  message : String
  status : Option Nat
  retryAfter : Option Nat
  deriving DecidableEq

/-- Backoff in milliseconds computed in the 429 handler: the retry-after
header times 1000, defaulting to 60000 (the source variable retrySeconds
holds this millisecond value despite its name). -/
def retryMillis (retryAfter : Option Nat) : Nat :=
  match retryAfter with
  | some ra => ra * 1000
  | none => 60000

/-- Tracker update performed by the 429 branch of the catch handler. -/
def record429 (tr : Tracker) (m : String) (now : Nat) (retryAfter : Option Nat) : Tracker :=
  let retrySeconds := retryMillis retryAfter
  trackerSet tr m
    { model := m, nextAvailableTime := now + retrySeconds,
      retryAfterSeconds := some ((retrySeconds + 999) / 1000) }

/-- Catch handler of one failed attempt: only a 429-status error touches
the tracker. -/
def handleFailure (tr : Tracker) (m : String) (now : Nat) (e : GeminiError) : Tracker :=
  if e.status = some 429 then record429 tr m now e.retryAfter else tr

/-- Core fallback loop of this generateGeminiResponse variant, threading
the tracker: a 429 records a rate limit, success deletes the entry, and
the model list is walked unconditionally (the tracker is never read
here). The time of the 429 handler is the supplied now. Also returns the
attempted models in order. -/
def runModelsRL (call : String → Except GeminiError GeminiService.GeminiRaw)
    (includeThinking : Bool) (now : Nat) :
    List String → Option GeminiError → Tracker →
    Except String GeminiService.GeminiResponse × Tracker × List String
  | [], last, tr => (Except.error ((last.map (fun e => e.message)).getD GeminiService.allFailedMsg), tr, [])
  | m :: rest, last, tr =>
    match call m with
    | Except.error e =>
      let tr2 := handleFailure tr m now e
      let r := runModelsRL call includeThinking now rest (some e) tr2
      (r.1, r.2.1, m :: r.2.2)
    | Except.ok raw =>
      if raw.text = "" then
        let r := runModelsRL call includeThinking now rest
          (some { message := GeminiService.noTextMsg m, status := none, retryAfter := none }) tr
        (r.1, r.2.1, m :: r.2.2)
      else
        (Except.ok (GeminiService.mkResponse includeThinking m raw), trackerDelete tr m, [m])

/-- Embedding of the rate-limit-aware generateGeminiResponse. -/
def generateGeminiResponse (call : String → Except GeminiError GeminiService.GeminiRaw)
    (includeThinking : Bool) (now : Nat) (tr : Tracker) :
    Except String GeminiService.GeminiResponse × Tracker × List String :=
  runModelsRL call includeThinking now GEMINI_MODELS none tr

/-- Classification loop of getAvailableModels over a model list. -/
def classifyModels (tr : Tracker) (now : Nat) :
    List String → List String × List RateLimitInfo
  | [] => ([], [])
  | m :: rest =>
    let r := classifyModels tr now rest
    match trackerGet tr m with
    | some info =>
      if info.nextAvailableTime > now then (r.1, info :: r.2) else (m :: r.1, r.2)
    | none => (m :: r.1, r.2)

/-- Embedding of getAvailableModels: walks GEMINI_MODELS and sorts each
model into available or rateLimited by the strict comparison
nextAvailableTime > now; an absent or expired entry means available. -/
def getAvailableModels (tr : Tracker) (now : Nat) : List String × List RateLimitInfo :=
  classifyModels tr now GEMINI_MODELS

/-- Well-formedness of a tracker: every entry is keyed by its own model
name. Trackers produced by the tracker operations from the empty map have
this shape. -/
def trackerWF (tr : Tracker) : Prop :=
  ∀ kv : String × RateLimitInfo, kv ∈ tr → kv.2.model = kv.1

end GeminiServiceRL

/-! ## src/server/routes.ts (orchestration and endpoints) -/

namespace Routes

open SurveyIA

/-- Request-scoped image payload. -/
structure ImageData where
  mimeType : String
  data : String
  deriving DecidableEq

/-- Keyword vocabulary of the reasoning-heavy routing heuristic. -/
def reasoningKeywords : List String :=
  ["analyze", "compare", "calculate", "why", "explain", "evaluate", "summarize"]

/-- Reasoning heuristic: some keyword is a substring of the lowercased
question. -/
def hasReasoning (question : String) : Bool :=
  reasoningKeywords.any (fun k => strContains (jsToLower question) k)

/-- Untyped profile value reaching generateSurveyResponse: the persisted
profile fields plus the dynamically attached image (and the imageData
alias the non-streaming path also reads, which no endpoint ever sets). -/
structure UserProfileVal where
  image : Option ImageData
  imageData : Option ImageData
  profile : PromptsI18n.Profile
  deriving DecidableEq

/-- Cloudflare request as the orchestrator builds it. Temperature,
maxTokens, thinking flag and the tools declaration are carried unchanged
to the adapter and elided here; the fields below are the ones routing and
the claims depend on. -/
structure CFRequest where
  prompt : String
  model : String
  imageData : Option ImageData
  deriving DecidableEq

/-- Cloudflare adapter response. -/
structure CFResponse where
  text : String
  model : String
  deriving DecidableEq

/-- Cloudflare model of the multimodal route. -/
def multimodalModel : String := "@cf/meta/llama-4-scout-17b-16e-instruct"

/-- Cloudflare model of the reasoning route. -/
def reasoningModel : String := "@cf/openai/gpt-oss-120b"

/-- One provider-level attempt made by the orchestrator. -/
inductive ProviderAttempt
  | cloudflare (model : String)
  | gemini
  deriving DecidableEq

/-- Unified result of a generation call as the endpoints consume it. -/
structure GenResult where
  text : String
  model : String
  thinking : Option String
  inputTokens : Option Nat
  outputTokens : Option Nat
  deriving DecidableEq

/-- Result shape returned from a Cloudflare branch: text and model only. -/
def ofCF (r : CFResponse) : GenResult :=
  { text := r.text, model := r.model, thinking := none,
    inputTokens := none, outputTokens := none }

/-- Result shape returned from the Gemini branch. -/
def ofGemini (r : GeminiService.GeminiResponse) : GenResult :=
  { text := r.text, model := r.model, thinking := r.thinking,
    inputTokens := r.inputTokens, outputTokens := r.outputTokens }

/-- Claim-shaped routing rule, stated from the specification words: image
first, then the reasoning keywords, then the default Gemini provider.
Compared against the orchestrator embeddings in the routing theorems. -/
def specSelectedRoute (image : Option ImageData) (question : String) : ProviderAttempt :=
  match image with
  | some _ => ProviderAttempt.cloudflare multimodalModel
  | none =>
    if hasReasoning question then ProviderAttempt.cloudflare reasoningModel
    else ProviderAttempt.gemini

/-- Embedding of generateSurveyResponse: selects the route, performs the
first provider attempt, and on any thrown error performs one fallback call
to the Gemini provider (the catch block wraps all three branches,
including the Gemini default branch itself). The gemini oracle stands for
one full generateGeminiResponse invocation; calling it twice models two
invocations with identical outcome. Also returns the provider attempts in
order. -/
def generateSurveyResponse
    (cf : CFRequest → Except String CFResponse)
    (gemini : Unit → Except String GeminiService.GeminiResponse)
    (userProfile : UserProfileVal) (question : String) :
    Except String GenResult × List ProviderAttempt :=
  let systemPrompt := PromptsI18n.getSystemPrompt userProfile.profile
  let imageData := jsOrObj userProfile.image userProfile.imageData
  let firstResult : Except String GenResult :=
    match imageData with
    | some img =>
      (cf { prompt := systemPrompt ++ "\n\n" ++ question,
            model := multimodalModel, imageData := some img }).map ofCF
    | none =>
      if hasReasoning question then
        (cf { prompt := systemPrompt ++ "\n\n" ++ question,
              model := reasoningModel, imageData := none }).map ofCF
      else (gemini ()).map ofGemini
  let firstAttempt : ProviderAttempt :=
    match imageData with
    | some _ => ProviderAttempt.cloudflare multimodalModel
    | none =>
      if hasReasoning question then ProviderAttempt.cloudflare reasoningModel
      else ProviderAttempt.gemini
  match firstResult with
  | Except.ok r => (Except.ok r, [firstAttempt])
  | Except.error _ =>
    ((gemini ()).map ofGemini, [firstAttempt, ProviderAttempt.gemini])

/-- Call fields of a parsed tool-call payload: the key aliases the stream
interceptor accepts. -/
structure ToolCallFields where
  name : Option String
  tool : Option String
  arguments : Option StrMap
  args : Option StrMap
  params : Option StrMap
  deriving DecidableEq

/-- Parsed JSON object of a streamed chunk: the optional nested tool_call
and function_call objects, and the top-level object itself viewed as call
fields (parsed.name is self.name). -/
structure ParsedObj where
  tool_call : Option ToolCallFields
  function_call : Option ToolCallFields
  self : ToolCallFields
  deriving DecidableEq

/-- One streamed chunk: its raw text, and the result of the guarded
JSON.parse(raw) when raw.trim() starts with an opening brace and parses
to an object (none covers both a non-JSON chunk and a parse failure,
which the source treats identically via its catch). -/
structure Chunk where
  raw : String
  parsed : Option ParsedObj
  deriving DecidableEq

/-- Tool-call detection and normalization of one chunk, as the streaming
loop performs it: the guard requires tool_call, function_call or a truthy
top-level name; the call object is tool_call, else function_call, else
the object itself; the name falls through name, tool, parsed.name (a JS
template renders a missing name as the text undefined); the arguments
fall through arguments, args, params, defaulting to an empty mapping. -/
def toolCallOf (c : Chunk) : Option (String × StrMap) :=
  match c.parsed with
  | none => none
  | some p =>
    if p.tool_call.isSome || p.function_call.isSome || (jsOrStr p.self.name none).isSome then
      let call :=
        match p.tool_call with
        | some tc => tc
        | none =>
          match p.function_call with
          | some fc => fc
          | none => p.self
      let name := (jsOrStr call.name (jsOrStr call.tool p.self.name)).getD "undefined"
      let args := (jsOrObj call.arguments (jsOrObj call.args call.params)).getD []
      some (name, args)
    else none

/-- Events sent for one chunk by the tool-intercepting streaming branches:
a plain chunk is forwarded verbatim; a tool-call chunk produces the
tool-call marker, the result markers around the handler output, then the
follow-up generation text as one fragment (the follow-up request is built
by mkFollowReq from the tool name and result); when the follow-up call
throws, the inner catch falls back to sending the raw chunk. -/
def chunkEvents (cfGenerate : CFRequest → Except String CFResponse)
    (mkFollowReq : String → String → CFRequest) (c : Chunk) : List String :=
  match toolCallOf c with
  | none => [c.raw]
  | some (name, args) =>
    let result := ToolHandlers.handleToolCall name args
    let head := ["[TOOL_CALL] " ++ name, "[TOOL_RESULT_BEGIN] " ++ name,
                 result, "[TOOL_RESULT_END] " ++ name]
    match cfGenerate (mkFollowReq name result) with
    | Except.ok f => head ++ [f.text]
    | Except.error _ => head ++ [c.raw]

/-- Follow-up generation requests issued for one chunk (the arguments the
interceptor passes to generateCloudflareResponse), used to state that
exactly one follow-up call is made per tool call. -/
def chunkFollowReqs (mkFollowReq : String → String → CFRequest) (c : Chunk) : List CFRequest :=
  match toolCallOf c with
  | none => []
  | some (name, args) => [mkFollowReq name (ToolHandlers.handleToolCall name args)]

/-- Follow-up request built after a tool call in the reasoning streaming
branch: the base prompt with the tool name and result appended, against
the reasoning model. -/
def mkFollowReasoning (promptQ : String) (name result : String) : CFRequest :=
  { prompt := promptQ ++ "\n\nTool " ++ name ++ " result:\n" ++ result,
    model := reasoningModel, imageData := none }

/-- Follow-up request built after a tool call in the image streaming
branch: same prompt shape against the multimodal model, carrying the
image. -/
def mkFollowImage (promptQ : String) (img : ImageData) (name result : String) : CFRequest :=
  { prompt := promptQ ++ "\n\nTool " ++ name ++ " result:\n" ++ result,
    model := multimodalModel, imageData := some img }

/-- Outcome of the streaming endpoint: the data events written in order
(heartbeat comments excluded), whether the handler fell into its outer
catch (a 500 response without the sentinel), and the provider-level
stream attempts made. -/
structure SSEResult where
  events : List String
  errored : Bool
  attempts : List ProviderAttempt
  deriving DecidableEq

/-- Behaviour of one upstream stream: acquisition may throw (error side);
otherwise some chunks arrive and the iteration either completes (none) or
throws (some message). -/
abbrev StreamOutcome : Type := Except String (List Chunk × Option String)

/-- Embedding of the POST /api/survey/generate/stream handler after the
user is loaded and the request image has been attached to the user value:
the image branch and the reasoning branch stream Cloudflare with tool
interception; the default branch streams Gemini and, when the Gemini
generator throws, falls back to a Cloudflare reasoning stream relayed
without interception. Success paths append the [DONE] sentinel; a throw
reaches the outer catch which answers 500 without the sentinel. The
gemStream argument is the observable behaviour of streamGeminiResponse:
the fragments it yields and its optional terminal error. -/
def streamSurveyEndpoint
    (cfStream : CFRequest → StreamOutcome)
    (cfGenerate : CFRequest → Except String CFResponse)
    (gemStream : List String × Option String)
    (user : UserProfileVal) (question : String) : SSEResult :=
  let promptQ := PromptsI18n.getSystemPrompt user.profile ++ "\n\n" ++ question
  match user.image with
  | some img =>
    let mk := mkFollowImage promptQ img
    (match cfStream { prompt := promptQ, model := multimodalModel, imageData := some img } with
     | Except.error _ =>
       { events := [], errored := true,
         attempts := [ProviderAttempt.cloudflare multimodalModel] }
     | Except.ok (chunks, fail) =>
       let evs := chunks.flatMap (chunkEvents cfGenerate mk)
       match fail with
       | some _ =>
         { events := evs, errored := true,
           attempts := [ProviderAttempt.cloudflare multimodalModel] }
       | none =>
         { events := evs ++ ["[DONE]"], errored := false,
           attempts := [ProviderAttempt.cloudflare multimodalModel] })
  | none =>
    if hasReasoning question then
      let mk := mkFollowReasoning promptQ
      match cfStream { prompt := promptQ, model := reasoningModel, imageData := none } with
      | Except.error _ =>
        { events := [], errored := true,
          attempts := [ProviderAttempt.cloudflare reasoningModel] }
      | Except.ok (chunks, fail) =>
        let evs := chunks.flatMap (chunkEvents cfGenerate mk)
        match fail with
        | some _ =>
          { events := evs, errored := true,
            attempts := [ProviderAttempt.cloudflare reasoningModel] }
        | none =>
          { events := evs ++ ["[DONE]"], errored := false,
            attempts := [ProviderAttempt.cloudflare reasoningModel] }
    else
      match gemStream with
      | (frags, none) =>
        { events := frags ++ ["[DONE]"], errored := false,
          attempts := [ProviderAttempt.gemini] }
      | (frags, some _) =>
        match cfStream { prompt := promptQ, model := reasoningModel, imageData := none } with
        | Except.error _ =>
          { events := frags, errored := true,
            attempts := [ProviderAttempt.gemini, ProviderAttempt.cloudflare reasoningModel] }
        | Except.ok (chunks, fail2) =>
          let evs := frags ++ chunks.map (fun c => c.raw)
          match fail2 with
          | some _ =>
            { events := evs, errored := true,
              attempts := [ProviderAttempt.gemini, ProviderAttempt.cloudflare reasoningModel] }
          | none =>
            { events := evs ++ ["[DONE]"], errored := false,
              attempts := [ProviderAttempt.gemini, ProviderAttempt.cloudflare reasoningModel] }

/-- Inactivity window of the idle watchdog, in milliseconds. -/
def idleWindowMs : Nat := 1000 * 60 * 3

/-- Guard of the idle watchdog interval. -/
def idleCheckFires (lastActivity now : Nat) : Bool := now - lastActivity > idleWindowMs

/-- Events forced out by one idle-watchdog tick: the sentinel when the
inactivity window is exceeded (the handler then closes the stream),
nothing otherwise. -/
def idleCheckEvents (lastActivity now : Nat) : List String :=
  if idleCheckFires lastActivity now then ["[DONE]"] else []

/-- User record of the in-memory mock storage (the storage routes.ts uses
when no DATABASE_URL is configured). The demographics and preferences
mappings are always present (createUser defaults them to empty mappings);
image is the expando field the generate endpoints attach, absent on
creation. -/
structure StoredUser where
  id : Nat
  username : String
  language : String
  demographics : StrMap
  preferences : StrMap
  image : Option ImageData
  deriving DecidableEq

/-- Survey response record persisted by the generate endpoint. -/
structure SurveyRecord where
  userId : Nat
  question : String
  answer : Option String
  modelUsed : String
  status : String
  deriving DecidableEq

/-- Profile value the endpoint passes to generateSurveyResponse, built
from a stored user: both persisted mappings are present objects, and the
imageData alias is never set by any endpoint. -/
def profileOf (u : StoredUser) : UserProfileVal :=
  { image := u.image, imageData := none,
    profile := { demographics := some u.demographics, preferences := some u.preferences } }

/-- Outcome of one POST /api/survey/generate request: the success body
when any, the HTTP status, and the post-request storage state (users and
survey records). -/
structure GenerateOutcome where
  response : Option GenResult
  status : Nat
  store : List StoredUser
  records : List SurveyRecord
  deriving DecidableEq

/-- Attachment of the request image onto the fetched user object: the
assignment user.image = image when a request image is present. -/
def attachedUser (u : StoredUser) (image : Option ImageData) : StoredUser :=
  match image with
  | some img => { u with image := some img }
  | none => u

/-- Embedding of the POST /api/survey/generate handler over the in-memory
store: validate the question, load the user, attach the request image
directly onto the fetched user object (MockStorage getUser returns the
stored object by reference, so the assignment mutates the stored entity —
modelled as a store update), run the orchestrator, and on success persist
a metadata-only survey record (answer deliberately null). -/
def generateEndpoint
    (cf : CFRequest → Except String CFResponse)
    (gemini : Unit → Except String GeminiService.GeminiResponse)
    (store : List StoredUser) (records : List SurveyRecord)
    (userId : Nat) (question : String) (image : Option ImageData) : GenerateOutcome :=
  if question = "" then
    { response := none, status := 400, store := store, records := records }
  else
    match store.find? (fun u => decide (u.id = userId)) with
    | none => { response := none, status := 404, store := store, records := records }
    | some u =>
      let u2 := attachedUser u image
      let store2 := store.map (fun v => if v.id = userId then u2 else v)
      match (generateSurveyResponse cf gemini (profileOf u2) question).1 with
      | Except.ok r =>
        { response := some r, status := 200, store := store2,
          records := records ++ [{ userId := userId, question := question, answer := none,
                                   modelUsed := r.model, status := "completed" }] }
      | Except.error _ =>
        { response := none, status := 500, store := store2, records := records }

end Routes

/-! ## Concrete oracles and fixtures used by witnesses and counterexamples -/

/-- Gemini oracle where the first model fails and the second answers. -/
def wOracleC2 : String → Except String GeminiService.GeminiRaw := fun m =>
  if m = "gemini-3-flash-preview" then Except.error "boom"
  else Except.ok { text := "hello", thinking := some "t", inputTokens := some 5, outputTokens := some 7 }

/-- Gemini oracle where every model fails. -/
def wOracleAllFail : String → Except String GeminiService.GeminiRaw := fun m =>
  Except.error ("down " ++ m)

/-- Streaming oracle where the first model yields one fragment and then
throws, and the second model streams one fragment cleanly. -/
def cexOracleC6 : String → GeminiService.StreamBehavior := fun m =>
  if m = "gemini-3-flash-preview" then { chunks := ["a"], failure := some "boom" }
  else if m = "gemini-2.5-pro" then { chunks := ["b"], failure := none }
  else { chunks := [], failure := some "unreached" }

/-- Gemini provider oracle that always fails. -/
def cexGeminiDown : Unit → Except String GeminiService.GeminiResponse := fun _ =>
  Except.error "gemini down"

/-- Cloudflare oracle that always fails. -/
def cexCFDown : Routes.CFRequest → Except String Routes.CFResponse := fun _ =>
  Except.error "CLOUDFLARE_TOKEN is not set in environment"

/-- Cloudflare generate oracle that echoes the request model. -/
def wCFOk : Routes.CFRequest → Except String Routes.CFResponse := fun req =>
  Except.ok { text := "cf-answer", model := req.model }

/-- Cloudflare stream oracle that always throws at acquisition. -/
def cexCFStreamDown : Routes.CFRequest → Routes.StreamOutcome := fun _ =>
  Except.error "CLOUDFLARE_TOKEN is not set in environment"

/-- Profile value with an attached image and empty persisted mappings. -/
def wImageProfile : Routes.UserProfileVal :=
  { image := some { mimeType := "image/png", data := "QUJD" }, imageData := none,
    profile := { demographics := some [], preferences := some [] } }

/-- Profile value with no image and empty persisted mappings. -/
def wPlainProfile : Routes.UserProfileVal :=
  { image := none, imageData := none,
    profile := { demographics := some [], preferences := some [] } }

/-- Stored user fixture with no attached image. -/
def wStoredUser : Routes.StoredUser :=
  { id := 1, username := "demo_user", language := "es",
    demographics := [("age", "28")], preferences := [("tone", "Professional")],
    image := none }

/-- Rate-limit oracle failing the first model with a 429 carrying a
30-second retry-after header and succeeding on the second model. -/
def wOracleRL : String → Except GeminiServiceRL.GeminiError GeminiService.GeminiRaw := fun m =>
  if m = "gemini-3-flash-preview" then
    Except.error { message := "rate limited", status := some 429, retryAfter := some 30 }
  else Except.ok { text := "ok", thinking := none, inputTokens := none, outputTokens := none }

/-- Rate-limit oracle where every model fails with a plain error. -/
def cexOracleRLDown : String → Except GeminiServiceRL.GeminiError GeminiService.GeminiRaw := fun m =>
  Except.error { message := "down " ++ m, status := some 500, retryAfter := none }

/-- Tracker holding an unexpired rate-limit entry for the first model of
the rate-limited variant. -/
def cexTrackerBusy : GeminiServiceRL.Tracker :=
  [("gemini-3-flash-preview",
    { model := "gemini-3-flash-preview", nextAvailableTime := 1000000, retryAfterSeconds := some 60 })]

/-- Chunk that parses as a web_search tool call with one argument. -/
def wToolChunk : Routes.Chunk :=
  { raw := "\x7b\x22tool_call\x22:...\x7d",
    parsed := some
      { tool_call := some { name := some "web_search", tool := none,
                            arguments := some [("query", "x")], args := none, params := none },
        function_call := none,
        self := { name := none, tool := none, arguments := none, args := none, params := none } } }

/-- Chunk that does not parse as JSON. -/
def wPlainChunk : Routes.Chunk := { raw := "plain text", parsed := none }

/-- Cloudflare stream oracle delivering the tool-call chunk and completing. -/
def wCFStreamTool : Routes.CFRequest → Routes.StreamOutcome := fun _ =>
  Except.ok ([wToolChunk], none)

/-- Cloudflare stream oracle delivering one plain chunk and completing. -/
def wCFStreamPlain : Routes.CFRequest → Routes.StreamOutcome := fun _ =>
  Except.ok ([wPlainChunk], none)

/-! ## Derived notions used by the theorems -/

/-- Message of the error finally thrown by the fallback loop when every
attempt in the given list fails: lastError is overwritten by each failed
attempt in order, then thrown (defaulting to the aggregate message when
nothing was recorded). -/
def GeminiService.lastAttemptMsg (call : String → Except String GeminiService.GeminiRaw) :
    List String → Option String → String
  | [], last => last.getD GeminiService.allFailedMsg
  | m :: rest, _ => GeminiService.lastAttemptMsg call rest (GeminiService.attemptFailure call m)

/-- Discriminator for Cloudflare provider attempts. -/
def Routes.ProviderAttempt.isCF : Routes.ProviderAttempt → Bool
  | Routes.ProviderAttempt.cloudflare _ => true
  | Routes.ProviderAttempt.gemini => false

/-- Tracker verdict getAvailableModels applies to one model: an entry
exists and its next-available time is strictly in the future. -/
def GeminiServiceRL.blockedAt (tr : GeminiServiceRL.Tracker) (now : Nat) (m : String) : Bool :=
  match GeminiServiceRL.trackerGet tr m with
  | some info => info.nextAvailableTime > now
  | none => false

/-! ## Formal statements of the claims that the code refutes -/

/-- Statement of claim C3 at the orchestrator: when the default Gemini
provider is the first choice, it is the only provider attempt of the
request. -/
def claimC3 : Prop :=
  ∀ (cf : Routes.CFRequest → Except String Routes.CFResponse)
    (gemini : Unit → Except String GeminiService.GeminiResponse)
    (user : Routes.UserProfileVal) (question : String),
    user.image = none → user.imageData = none → Routes.hasReasoning question = false →
    (Routes.generateSurveyResponse cf gemini user question).2 = [Routes.ProviderAttempt.gemini]

/-- Statement of claim C5: a model whose tracker entry has not yet expired
is never dispatched to by the generate fallback loop. -/
def claimC5 : Prop :=
  ∀ (call : String → Except GeminiServiceRL.GeminiError GeminiService.GeminiRaw)
    (inc : Bool) (now : Nat) (tr : GeminiServiceRL.Tracker) (m : String)
    (info : GeminiServiceRL.RateLimitInfo),
    GeminiServiceRL.trackerGet tr m = some info → info.nextAvailableTime > now →
    m ∉ (GeminiServiceRL.generateGeminiResponse call inc now tr).2.2

/-- Statement of claim C6 at the first model of the streaming adapter: if
it yields at least one fragment and then fails mid-stream, the call yields
exactly its fragments and terminates with an error (no splice from a
later model). -/
def claimC6 : Prop :=
  ∀ scall : String → GeminiService.StreamBehavior,
    GeminiService.yieldedOf (scall "gemini-3-flash-preview") ≠ [] →
    (scall "gemini-3-flash-preview").failure.isSome →
    (GeminiService.streamGeminiResponse scall).1 =
        GeminiService.yieldedOf (scall "gemini-3-flash-preview") ∧
      (GeminiService.streamGeminiResponse scall).2.isSome

/-- Statement of claim C8: every streaming response ends with the [DONE]
sentinel as its final event. -/
def claimC8 : Prop :=
  ∀ (cfStream : Routes.CFRequest → Routes.StreamOutcome)
    (cfGenerate : Routes.CFRequest → Except String Routes.CFResponse)
    (gemStream : List String × Option String)
    (user : Routes.UserProfileVal) (question : String),
    (Routes.streamSurveyEndpoint cfStream cfGenerate gemStream user question).events.getLast? =
      some "[DONE]"

/-- Statement of claim C9 on the profile context of the prompt builder: a
profile whose demographics and preferences are both present but empty
mappings produces no labeled block. -/
def claimC9 : Prop :=
  ∀ p : PromptsI18n.Profile, p.demographics = some [] → p.preferences = some [] →
    PromptsI18n.profileSections p = []

/-- Statement of claim C10 at the generate endpoint over the in-memory
store: a request-scoped image is never left on any stored profile
entity. -/
def claimC10 : Prop :=
  ∀ (cf : Routes.CFRequest → Except String Routes.CFResponse)
    (gemini : Unit → Except String GeminiService.GeminiResponse)
    (store : List Routes.StoredUser) (records : List Routes.SurveyRecord)
    (userId : Nat) (question : String) (image : Option Routes.ImageData),
    (∀ u ∈ store, u.image = none) →
    ∀ u ∈ (Routes.generateEndpoint cf gemini store records userId question image).store,
      u.image = none

end SurveyIA

/-! # Theorems -/

namespace SurveyIA

namespace GeminiService

theorem runModels_error_step (call : String → Except String GeminiRaw) (inc : Bool)
    (x : String) (ms : List String) (last : Option String) (e0 : String)
    (hc : call x = Except.error e0) :
    runModels call inc (x :: ms) last =
      ((runModels call inc ms (some e0)).1, x :: (runModels call inc ms (some e0)).2) := by
  simp [runModels, hc]

theorem runModels_empty_step (call : String → Except String GeminiRaw) (inc : Bool)
    (x : String) (ms : List String) (last : Option String) (rawx : GeminiRaw)
    (hc : call x = Except.ok rawx) (ht : rawx.text = "") :
    runModels call inc (x :: ms) last =
      ((runModels call inc ms (some (noTextMsg x))).1,
        x :: (runModels call inc ms (some (noTextMsg x))).2) := by
  simp [runModels, hc, ht]

theorem runModels_ok_step (call : String → Except String GeminiRaw) (inc : Bool)
    (x : String) (ms : List String) (last : Option String) (rawx : GeminiRaw)
    (hc : call x = Except.ok rawx) (ht : rawx.text ≠ "") :
    runModels call inc (x :: ms) last = (Except.ok (mkResponse inc x rawx), [x]) := by
  simp [runModels, hc, ht]

theorem runModels_all_fail (call : String → Except String GeminiRaw) (inc : Bool) :
    ∀ (ms : List String) (last : Option String),
    (∀ m ∈ ms, (attemptFailure call m).isSome) →
    runModels call inc ms last = (Except.error (lastAttemptMsg call ms last), ms) := by
  intro ms
  induction ms with
  | nil => intro last _; simp [runModels, lastAttemptMsg]
  | cons m rest ih =>
    intro last h
    have hm : (attemptFailure call m).isSome := h m (by simp)
    have hrest : ∀ x ∈ rest, (attemptFailure call x).isSome := fun x hx => h x (by simp [hx])
    cases hc : call m with
    | error e0 =>
      have hf : attemptFailure call m = some e0 := by simp [attemptFailure, hc]
      rw [runModels_error_step call inc m rest last e0 hc, ih (some e0) hrest]
      have hl : lastAttemptMsg call (m :: rest) last = lastAttemptMsg call rest (some e0) := by
        rw [lastAttemptMsg, hf]
      rw [hl]
    | ok raw =>
      by_cases ht : raw.text = ""
      · have hf : attemptFailure call m = some (noTextMsg m) := by simp [attemptFailure, hc, ht]
        rw [runModels_empty_step call inc m rest last raw hc ht, ih (some (noTextMsg m)) hrest]
        have hl : lastAttemptMsg call (m :: rest) last =
            lastAttemptMsg call rest (some (noTextMsg m)) := by
          rw [lastAttemptMsg, hf]
        rw [hl]
      · exfalso
        simp [attemptFailure, hc, ht] at hm

theorem runModels_success (call : String → Except String GeminiRaw) (inc : Bool) :
    ∀ (pre : List String) (m : String) (post : List String) (raw : GeminiRaw)
      (last : Option String),
    (∀ x ∈ pre, (attemptFailure call x).isSome) →
    call m = Except.ok raw → raw.text ≠ "" →
    runModels call inc (pre ++ m :: post) last = (Except.ok (mkResponse inc m raw), pre ++ [m]) := by
  intro pre
  induction pre with
  | nil =>
    intro m post raw last _ hm ht
    exact runModels_ok_step call inc m post none raw hm ht
  | cons x xs ih =>
    intro m post raw last hpre hm ht
    have hx : (attemptFailure call x).isSome := hpre x (by simp)
    have hxs : ∀ y ∈ xs, (attemptFailure call y).isSome := fun y hy => hpre y (by simp [hy])
    rw [List.cons_append]
    cases hc : call x with
    | error e0 =>
      rw [runModels_error_step call inc x (xs ++ m :: post) last e0 hc,
        ih m post raw (some e0) hxs hm ht]
      simp
    | ok rawx =>
      by_cases hxt : rawx.text = ""
      · rw [runModels_empty_step call inc x (xs ++ m :: post) last rawx hc hxt,
          ih m post raw (some (noTextMsg x)) hxs hm ht]
        simp
      · exfalso
        simp [attemptFailure, hc, hxt] at hx

end GeminiService

/-- Claim C2: the Gemini adapter tries its fixed ordered model list top to
bottom; the first model returning non-empty text wins and its result
(text, model, optional thinking, usage counts) is returned with no later
model invoked (the attempt trace is exactly the failed prefix plus the
winner); a model fails on a thrown error or empty text; and when every
model fails the adapter raises the last failure (the generic aggregate
message is unreachable because the list is non-empty, matching the
parenthetical of the claim). -/
theorem c2_gemini_model_fallback (call : String → Except String GeminiService.GeminiRaw)
    (inc : Bool) :
    (∀ pre m post raw, GeminiService.GEMINI_MODELS = pre ++ m :: post →
       (∀ x ∈ pre, (GeminiService.attemptFailure call x).isSome) →
       call m = Except.ok raw → raw.text ≠ "" →
       GeminiService.generateGeminiResponse call inc =
         (Except.ok (GeminiService.mkResponse inc m raw), pre ++ [m]))
  ∧ ((∀ m ∈ GeminiService.GEMINI_MODELS, (GeminiService.attemptFailure call m).isSome) →
       GeminiService.generateGeminiResponse call inc =
         (Except.error ((GeminiService.attemptFailure call "gemini-2.5-flash-lite").getD
             GeminiService.allFailedMsg),
          GeminiService.GEMINI_MODELS)) := by
  constructor
  · intro pre m post raw hsplit hpre hm ht
    unfold GeminiService.generateGeminiResponse
    rw [hsplit]
    exact GeminiService.runModels_success call inc pre m post raw none hpre hm ht
  · intro hall
    unfold GeminiService.generateGeminiResponse
    rw [GeminiService.runModels_all_fail call inc GeminiService.GEMINI_MODELS none hall]
    rfl

/-- Witness for C2: under an oracle failing the first model and answering
on the second, the adapter returns the second model result having
attempted exactly the first two models. -/
theorem c2_gemini_model_fallback_witness :
    GeminiService.GEMINI_MODELS =
        ["gemini-3-flash-preview"] ++ "gemini-2.5-pro" :: ["gemini-2.5-flash", "gemini-2.5-flash-lite"] ∧
    (∀ x ∈ ["gemini-3-flash-preview"], (GeminiService.attemptFailure wOracleC2 x).isSome) ∧
    wOracleC2 "gemini-2.5-pro" =
        Except.ok { text := "hello", thinking := some "t", inputTokens := some 5, outputTokens := some 7 } ∧
    GeminiService.generateGeminiResponse wOracleC2 true =
      (Except.ok (GeminiService.mkResponse true "gemini-2.5-pro"
          { text := "hello", thinking := some "t", inputTokens := some 5, outputTokens := some 7 }),
       ["gemini-3-flash-preview", "gemini-2.5-pro"]) :=
  ⟨rfl, by decide, rfl,
    (c2_gemini_model_fallback wOracleC2 true).1 ["gemini-3-flash-preview"] "gemini-2.5-pro"
      ["gemini-2.5-flash", "gemini-2.5-flash-lite"]
      { text := "hello", thinking := some "t", inputTokens := some 5, outputTokens := some 7 }
      rfl (by decide) rfl (by decide)⟩

namespace GeminiService

theorem runStream_flatten (scall : String → StreamBehavior) :
    ∀ (ms : List String) (last : Option String),
    (runStream scall ms last).1 =
      (attemptedStreamModels scall ms).flatMap (fun m => yieldedOf (scall m)) := by
  intro ms
  induction ms with
  | nil => intro _; simp [runStream, attemptedStreamModels]
  | cons m rest ih =>
    intro last
    cases hf : (scall m).failure with
    | none => simp [runStream, attemptedStreamModels, hf]
    | some e => simp [runStream, attemptedStreamModels, hf, ih (some e)]

theorem runStream_error_iff (scall : String → StreamBehavior) :
    ∀ (ms : List String) (last : Option String),
    ((runStream scall ms last).2.isSome ↔ ∀ m ∈ ms, (scall m).failure.isSome) := by
  intro ms
  induction ms with
  | nil => intro _; simp [runStream]
  | cons m rest ih =>
    intro last
    cases hf : (scall m).failure with
    | none => simp [runStream, hf]
    | some e => simp [runStream, hf, ih (some e)]

end GeminiService

/-- Claim C6 counterexample: under a stream oracle whose first model
yields the fragment a and then throws while the second model streams the
fragment b cleanly, the adapter yields a and then b and terminates without
error, so a mid-stream failure after a yielded fragment neither terminates
the call nor prevents a later model fragment from being yielded. -/
theorem c6_counterexample : ¬ claimC6 := by
  intro h
  have h2 := h cexOracleC6 (by decide) (by decide)
  have h3 : GeminiService.streamGeminiResponse cexOracleC6 = (["a", "b"], none) := by decide
  rw [h3] at h2
  simp at h2

/-- Claim C6 (corrected): a mid-stream failure is not terminal — the
streaming adapter falls through to the next model even after fragments of
the failed model were yielded, so the yielded sequence is the
concatenation of every attempted model fragments (attempted means every
model up to and including the first to end cleanly), and the call ends in
error exactly when every model in the list fails. -/
theorem c6_stream_splice_amended (scall : String → GeminiService.StreamBehavior) :
    ((GeminiService.streamGeminiResponse scall).1 =
      (GeminiService.attemptedStreamModels scall GeminiService.GEMINI_MODELS).flatMap
        (fun m => GeminiService.yieldedOf (scall m)))
  ∧ ((GeminiService.streamGeminiResponse scall).2.isSome ↔
      ∀ m ∈ GeminiService.GEMINI_MODELS, (scall m).failure.isSome)
  ∧ (∀ m rest, (scall m).failure.isSome →
      GeminiService.attemptedStreamModels scall (m :: rest) =
        m :: GeminiService.attemptedStreamModels scall rest) := by
  refine ⟨?_, ?_, ?_⟩
  · exact GeminiService.runStream_flatten scall GeminiService.GEMINI_MODELS none
  · exact GeminiService.runStream_error_iff scall GeminiService.GEMINI_MODELS none
  · intro m rest hm
    simp [GeminiService.attemptedStreamModels, hm]

/-- Witness for the corrected C6: the failed first model of the oracle
remains followed by further attempted models. -/
theorem c6_stream_splice_amended_witness :
    (cexOracleC6 "gemini-3-flash-preview").failure.isSome ∧
    GeminiService.attemptedStreamModels cexOracleC6
        ("gemini-3-flash-preview" :: ["gemini-2.5-pro"]) =
      "gemini-3-flash-preview" :: GeminiService.attemptedStreamModels cexOracleC6 ["gemini-2.5-pro"] :=
  ⟨by decide,
    (c6_stream_splice_amended cexOracleC6).2.2 "gemini-3-flash-preview" ["gemini-2.5-pro"]
      (by decide)⟩

namespace Routes

theorem head_attempt (fr g : Except String GenResult) (fa : ProviderAttempt) :
    ((match fr with
      | Except.ok r => ((Except.ok r : Except String GenResult), [fa])
      | Except.error _ => (g, [fa, ProviderAttempt.gemini])).2.head? = some fa) := by
  cases fr <;> simp

end Routes

/-- Claim C1: both the non-streaming orchestrator and the streaming
endpoint select the route deterministically in the claimed order — an
attached image routes to the Cloudflare multimodal model, otherwise a
reasoning keyword in the lowercased question routes to the Cloudflare
gpt-oss-120b model, otherwise the Gemini provider — as witnessed by the
first provider attempt of each entry point (the imageData alias that only
the non-streaming path reads is never set by the endpoints, hence the
hypothesis). -/
theorem c1_route_selection
    (cf : Routes.CFRequest → Except String Routes.CFResponse)
    (gemini : Unit → Except String GeminiService.GeminiResponse)
    (cfStream : Routes.CFRequest → Routes.StreamOutcome)
    (cfGenerate : Routes.CFRequest → Except String Routes.CFResponse)
    (gemStream : List String × Option String)
    (user : Routes.UserProfileVal) (question : String)
    (him : user.imageData = none) :
    (Routes.generateSurveyResponse cf gemini user question).2.head? =
        some (Routes.specSelectedRoute user.image question)
  ∧ (Routes.streamSurveyEndpoint cfStream cfGenerate gemStream user question).attempts.head? =
        some (Routes.specSelectedRoute user.image question) := by
  constructor
  · cases him2 : user.image with
    | some img =>
      simp only [Routes.generateSurveyResponse, Routes.specSelectedRoute, him, him2, jsOrObj]
      exact Routes.head_attempt _ _ _
    | none =>
      by_cases hr : Routes.hasReasoning question = true
      · simp only [Routes.generateSurveyResponse, Routes.specSelectedRoute, him, him2, jsOrObj,
          hr, if_true]
        exact Routes.head_attempt _ _ _
      · simp only [Routes.generateSurveyResponse, Routes.specSelectedRoute, him, him2, jsOrObj,
          hr, if_false, Bool.false_eq_true]
        exact Routes.head_attempt _ _ _
  · cases him2 : user.image with
    | some img =>
      simp only [Routes.streamSurveyEndpoint, Routes.specSelectedRoute, him2]
      split <;> try rfl
      split <;> rfl
    | none =>
      by_cases hr : Routes.hasReasoning question = true
      · simp only [Routes.streamSurveyEndpoint, Routes.specSelectedRoute, him2, hr, if_true]
        split <;> try rfl
        split <;> rfl
      · simp only [Routes.streamSurveyEndpoint, Routes.specSelectedRoute, him2, hr, if_false,
          Bool.false_eq_true]
        split <;> try rfl
        split <;> try rfl
        split <;> rfl

/-- Witness for C1: with an attached image the first attempt of both entry
points is the Cloudflare multimodal model. -/
theorem c1_route_selection_witness :
    wImageProfile.imageData = none ∧
    (Routes.generateSurveyResponse wCFOk cexGeminiDown wImageProfile "hello").2.head? =
      some (Routes.specSelectedRoute wImageProfile.image "hello") ∧
    (Routes.streamSurveyEndpoint wCFStreamPlain wCFOk ([], none) wImageProfile "hello").attempts.head? =
      some (Routes.specSelectedRoute wImageProfile.image "hello") :=
  ⟨rfl,
    (c1_route_selection wCFOk cexGeminiDown wCFStreamPlain wCFOk ([], none) wImageProfile
      "hello" rfl).1,
    (c1_route_selection wCFOk cexGeminiDown wCFStreamPlain wCFOk ([], none) wImageProfile
      "hello" rfl).2⟩

namespace Routes

theorem gsr_attempts_shape (cf : CFRequest → Except String CFResponse)
    (gemini : Unit → Except String GeminiService.GeminiResponse)
    (user : UserProfileVal) (question : String) :
    (generateSurveyResponse cf gemini user question).2 =
        [specSelectedRoute (jsOrObj user.image user.imageData) question] ∨
    (generateSurveyResponse cf gemini user question).2 =
        [specSelectedRoute (jsOrObj user.image user.imageData) question,
         ProviderAttempt.gemini] := by
  simp only [generateSurveyResponse, specSelectedRoute]
  cases him : jsOrObj user.image user.imageData with
  | some img =>
    cases hcf : cf { prompt := PromptsI18n.getSystemPrompt user.profile ++ "\n\n" ++ question,
                     model := multimodalModel, imageData := some img } with
    | ok r => left; simp [hcf, Except.map]
    | error e => right; simp [hcf, Except.map]
  | none =>
    by_cases hr : hasReasoning question = true
    · cases hcf : cf { prompt := PromptsI18n.getSystemPrompt user.profile ++ "\n\n" ++ question,
                       model := reasoningModel, imageData := none } with
      | ok r => left; simp [hcf, hr, Except.map]
      | error e => right; simp [hcf, hr, Except.map]
    · cases hg : gemini () with
      | ok r => left; simp [hg, hr, Except.map]
      | error e => right; simp [hg, hr, Except.map]

theorem attempts_isCF_bound (fa : ProviderAttempt) :
    (List.countP (fun a => ProviderAttempt.isCF a) [fa] ≤ 1) ∧
    (List.countP (fun a => ProviderAttempt.isCF a) [fa, ProviderAttempt.gemini] ≤ 1) := by
  cases fa <;> simp [List.countP, List.countP.go, ProviderAttempt.isCF]

end Routes

/-- Claim C3 counterexample: with no image and no reasoning keyword the
default Gemini provider is the first choice, yet when it fails the
orchestrator calls the Gemini provider a second time within the same
request (the catch block also wraps the Gemini default branch), so the
attempt list is two Gemini attempts, not one. -/
theorem c3_counterexample : ¬ claimC3 := by
  intro h
  have h2 := h wCFOk cexGeminiDown wPlainProfile "hello" rfl rfl (by decide)
  have h3 : (Routes.generateSurveyResponse wCFOk cexGeminiDown wPlainProfile "hello").2 =
      [Routes.ProviderAttempt.gemini, Routes.ProviderAttempt.gemini] := by decide
  rw [h2] at h3
  simp at h3

/-- Claim C3 (corrected): every non-streaming request makes either one
provider attempt (first choice succeeded) or exactly two with the second
always the default Gemini provider; Cloudflare is never attempted twice;
but when the default Gemini provider is itself the first choice and
fails, the fallback attempts Gemini again, so the same provider is
attempted twice before the error propagates. -/
theorem c3_provider_fallback_amended
    (cf : Routes.CFRequest → Except String Routes.CFResponse)
    (gemini : Unit → Except String GeminiService.GeminiResponse)
    (user : Routes.UserProfileVal) (question : String) :
    ((Routes.generateSurveyResponse cf gemini user question).2 =
        [Routes.specSelectedRoute (jsOrObj user.image user.imageData) question] ∨
     (Routes.generateSurveyResponse cf gemini user question).2 =
        [Routes.specSelectedRoute (jsOrObj user.image user.imageData) question,
         Routes.ProviderAttempt.gemini])
  ∧ (List.countP (fun a => Routes.ProviderAttempt.isCF a)
        (Routes.generateSurveyResponse cf gemini user question).2 ≤ 1)
  ∧ (user.image = none → user.imageData = none → Routes.hasReasoning question = false →
      (∃ e, gemini () = Except.error e) →
      (Routes.generateSurveyResponse cf gemini user question).2 =
        [Routes.ProviderAttempt.gemini, Routes.ProviderAttempt.gemini]) := by
  refine ⟨Routes.gsr_attempts_shape cf gemini user question, ?_, ?_⟩
  · rcases Routes.gsr_attempts_shape cf gemini user question with h | h <;> rw [h]
    · exact (Routes.attempts_isCF_bound _).1
    · exact (Routes.attempts_isCF_bound _).2
  · intro h1 h2 h3 ⟨e, he⟩
    simp [Routes.generateSurveyResponse, h1, h2, jsOrObj, h3, he, Except.map]

/-- Witness for the corrected C3: a request on the default route whose
Gemini provider fails yields two Gemini attempts. -/
theorem c3_provider_fallback_amended_witness :
    wPlainProfile.image = none ∧ wPlainProfile.imageData = none ∧
    Routes.hasReasoning "hello" = false ∧ (∃ e, cexGeminiDown () = Except.error e) ∧
    (Routes.generateSurveyResponse wCFOk cexGeminiDown wPlainProfile "hello").2 =
      [Routes.ProviderAttempt.gemini, Routes.ProviderAttempt.gemini] :=
  ⟨rfl, rfl, by decide, ⟨"gemini down", rfl⟩,
    (c3_provider_fallback_amended wCFOk cexGeminiDown wPlainProfile "hello").2.2 rfl rfl
      (by decide) ⟨"gemini down", rfl⟩⟩

namespace GeminiServiceRL

theorem runModelsRL_tracker_independent
    (call : String → Except GeminiError GeminiService.GeminiRaw) (inc : Bool) (now : Nat) :
    ∀ (ms : List String) (last : Option GeminiError) (tr tr2 : Tracker),
    (runModelsRL call inc now ms last tr).1 = (runModelsRL call inc now ms last tr2).1 ∧
    (runModelsRL call inc now ms last tr).2.2 = (runModelsRL call inc now ms last tr2).2.2 := by
  intro ms
  induction ms with
  | nil => intro last tr tr2; simp [runModelsRL]
  | cons m rest ih =>
    intro last tr tr2
    cases hc : call m with
    | error e =>
      have h := ih (some e) (handleFailure tr m now e) (handleFailure tr2 m now e)
      simp only [runModelsRL, hc]
      exact ⟨h.1, by simp [h.2]⟩
    | ok raw =>
      by_cases ht : raw.text = ""
      · have h := ih (some ⟨GeminiService.noTextMsg m, none, none⟩) tr tr2
        simp only [runModelsRL, hc, ht, if_pos rfl]
        exact ⟨h.1, by simp [h.2]⟩
      · simp [runModelsRL, hc, ht]

end GeminiServiceRL

/-- Claim C5 counterexample: with a tracker holding an unexpired
rate-limit entry for the first model, the generate loop still attempts
that model (its attempt trace contains it), so rate-limited models are
not excluded from dispatch. -/
theorem c5_counterexample : ¬ claimC5 := by
  intro h
  have h2 := h cexOracleRLDown true 0 cexTrackerBusy "gemini-3-flash-preview"
      { model := "gemini-3-flash-preview", nextAvailableTime := 1000000,
        retryAfterSeconds := some 60 }
      (by decide) (by decide)
  exact h2 (by decide)

/-- Claim C5 (corrected): the rate-limit tracker is never consulted before
dispatch — the generate loop result and its attempted-model trace are
identical for any two tracker states, and the first model of the list is
always dispatched first regardless of the tracker (the tracker is only
read by getAvailableModels, which serves the status endpoint). -/
theorem c5_tracker_not_consulted_amended
    (call : String → Except GeminiServiceRL.GeminiError GeminiService.GeminiRaw)
    (inc : Bool) (now : Nat) (tr tr2 : GeminiServiceRL.Tracker) :
    ((GeminiServiceRL.generateGeminiResponse call inc now tr).1 =
      (GeminiServiceRL.generateGeminiResponse call inc now tr2).1)
  ∧ ((GeminiServiceRL.generateGeminiResponse call inc now tr).2.2 =
      (GeminiServiceRL.generateGeminiResponse call inc now tr2).2.2)
  ∧ ((GeminiServiceRL.generateGeminiResponse call inc now tr).2.2.head? =
      some "gemini-3-flash-preview") := by
  refine ⟨(GeminiServiceRL.runModelsRL_tracker_independent call inc now _ none tr tr2).1,
    (GeminiServiceRL.runModelsRL_tracker_independent call inc now _ none tr tr2).2, ?_⟩
  unfold GeminiServiceRL.generateGeminiResponse GeminiServiceRL.GEMINI_MODELS
  cases hc : call "gemini-3-flash-preview" with
  | error e => simp [GeminiServiceRL.runModelsRL, hc]
  | ok raw =>
    by_cases ht : raw.text = ""
    · simp [GeminiServiceRL.runModelsRL, hc, ht]
    · simp [GeminiServiceRL.runModelsRL, hc, ht]

namespace GeminiServiceRL

theorem lookup_filter_ne (m m2 : String) (h : m2 ≠ m) :
    ∀ tr : Tracker, (tr.filter (keyNe m)).lookup m2 = tr.lookup m2 := by
  intro tr
  induction tr with
  | nil => rfl
  | cons kv rest ih =>
    obtain ⟨k, v⟩ := kv
    rw [List.filter_cons]
    by_cases hk : k = m
    · have hp : keyNe m (k, v) = false := by simp [keyNe, hk]
      have hne : (m2 == k) = false := by
        subst hk
        exact beq_eq_false_iff_ne.mpr h
      simp [hp, List.lookup, hne, ih]
    · have hp : keyNe m (k, v) = true := by simp [keyNe, hk]
      by_cases hmk : m2 = k
      · subst hmk
        simp [hp, List.lookup]
      · have hne : (m2 == k) = false := beq_eq_false_iff_ne.mpr hmk
        simp [hp, List.lookup, hne, ih]

theorem lookup_filter_self (m : String) :
    ∀ tr : Tracker, (tr.filter (keyNe m)).lookup m = none := by
  intro tr
  induction tr with
  | nil => rfl
  | cons kv rest ih =>
    obtain ⟨k, v⟩ := kv
    rw [List.filter_cons]
    by_cases hk : k = m
    · have hp : keyNe m (k, v) = false := by simp [keyNe, hk]
      simp [hp, ih]
    · have hp : keyNe m (k, v) = true := by simp [keyNe, hk]
      have hne : (m == k) = false := beq_eq_false_iff_ne.mpr (fun he => hk he.symm)
      simp [hp, List.lookup, hne, ih]

theorem trackerGet_set_self (tr : Tracker) (m : String) (info : RateLimitInfo) :
    trackerGet (trackerSet tr m info) m = some info := by
  simp [trackerGet, trackerSet, List.lookup]

theorem trackerGet_set_ne (tr : Tracker) (m m2 : String) (info : RateLimitInfo) (h : m2 ≠ m) :
    trackerGet (trackerSet tr m info) m2 = trackerGet tr m2 := by
  have hne : (m2 == m) = false := beq_eq_false_iff_ne.mpr h
  have h2 := lookup_filter_ne m m2 h tr
  simp only [trackerGet, trackerSet, List.lookup, hne]
  exact h2

theorem trackerGet_delete_self (tr : Tracker) (m : String) :
    trackerGet (trackerDelete tr m) m = none := by
  simp [trackerGet, trackerDelete, lookup_filter_self m tr]

theorem trackerGet_delete_ne (tr : Tracker) (m m2 : String) (h : m2 ≠ m) :
    trackerGet (trackerDelete tr m) m2 = trackerGet tr m2 := by
  simp [trackerGet, trackerDelete, lookup_filter_ne m m2 h tr]

theorem classify_available_iff (tr : Tracker) (now : Nat) :
    ∀ (ms : List String) (m : String),
    m ∈ (classifyModels tr now ms).1 ↔ m ∈ ms ∧ blockedAt tr now m = false := by
  intro ms
  induction ms with
  | nil => intro m; simp [classifyModels]
  | cons x rest ih =>
    intro m
    unfold classifyModels
    cases hg : trackerGet tr x with
    | some info =>
      by_cases hb : info.nextAvailableTime > now
      · have hbx : blockedAt tr now x = true := by simp [blockedAt, hg, hb]
        simp only [hg, hb, if_pos, decide_eq_true_eq]
        rw [ih m]
        constructor
        · rintro ⟨hm, hbm⟩
          exact ⟨List.mem_cons_of_mem x hm, hbm⟩
        · rintro ⟨hm, hbm⟩
          rcases List.mem_cons.mp hm with rfl | hm2
          · rw [hbx] at hbm; cases hbm
          · exact ⟨hm2, hbm⟩
      · have hbx : blockedAt tr now x = false := by simp [blockedAt, hg, hb]
        simp only [hg, hb, if_neg, decide_eq_true_eq]
        constructor
        · intro hmem
          rcases List.mem_cons.mp hmem with rfl | hm2
          · exact ⟨List.mem_cons_self _ _, hbx⟩
          · obtain ⟨hm3, hb3⟩ := (ih m).mp hm2
            exact ⟨List.mem_cons_of_mem x hm3, hb3⟩
        · rintro ⟨hm, hbm⟩
          rcases List.mem_cons.mp hm with rfl | hm2
          · exact List.mem_cons_self _ _
          · exact List.mem_cons_of_mem x ((ih m).mpr ⟨hm2, hbm⟩)
    | none =>
      have hbx : blockedAt tr now x = false := by simp [blockedAt, hg]
      simp only [hg]
      constructor
      · intro hmem
        rcases List.mem_cons.mp hmem with rfl | hm2
        · exact ⟨List.mem_cons_self _ _, hbx⟩
        · obtain ⟨hm3, hb3⟩ := (ih m).mp hm2
          exact ⟨List.mem_cons_of_mem x hm3, hb3⟩
      · rintro ⟨hm, hbm⟩
        rcases List.mem_cons.mp hm with rfl | hm2
        · exact List.mem_cons_self _ _
        · exact List.mem_cons_of_mem x ((ih m).mpr ⟨hm2, hbm⟩)

theorem classify_limited_iff (tr : Tracker) (now : Nat) :
    ∀ (ms : List String) (info : RateLimitInfo),
    info ∈ (classifyModels tr now ms).2 ↔
      ∃ m, m ∈ ms ∧ trackerGet tr m = some info ∧ info.nextAvailableTime > now := by
  intro ms
  induction ms with
  | nil => intro info; simp [classifyModels]
  | cons x rest ih =>
    intro info
    unfold classifyModels
    cases hg : trackerGet tr x with
    | some i =>
      by_cases hb : i.nextAvailableTime > now
      · dsimp only
        rw [if_pos hb]
        simp only [List.mem_cons, ih info]
        constructor
        · rintro (rfl | ⟨m, hm, hgm, hbm⟩)
          · exact ⟨x, Or.inl rfl, hg, hb⟩
          · exact ⟨m, Or.inr hm, hgm, hbm⟩
        · rintro ⟨m, rfl | hm2, hgm, hbm⟩
          · rw [hg] at hgm
            exact Or.inl (Option.some.inj hgm).symm
          · exact Or.inr ⟨m, hm2, hgm, hbm⟩
      · dsimp only
        rw [if_neg hb]
        simp only [List.mem_cons, ih info]
        constructor
        · rintro ⟨m, hm, hgm, hbm⟩
          exact ⟨m, Or.inr hm, hgm, hbm⟩
        · rintro ⟨m, rfl | hm2, hgm, hbm⟩
          · rw [hg] at hgm
            rw [Option.some.inj hgm] at hb
            exact absurd hbm hb
          · exact ⟨m, hm2, hgm, hbm⟩
    | none =>
      dsimp only
      simp only [List.mem_cons, ih info]
      constructor
      · rintro ⟨m, hm, hgm, hbm⟩
        exact ⟨m, Or.inr hm, hgm, hbm⟩
      · rintro ⟨m, rfl | hm2, hgm, hbm⟩
        · rw [hg] at hgm; cases hgm
        · exact ⟨m, hm2, hgm, hbm⟩

theorem classify_all_unblocked (tr : Tracker) (now : Nat) :
    ∀ ms : List String, (∀ m ∈ ms, blockedAt tr now m = false) →
    classifyModels tr now ms = (ms, []) := by
  intro ms
  induction ms with
  | nil => intro _; simp [classifyModels]
  | cons x rest ih =>
    intro h
    have hx : blockedAt tr now x = false := h x (List.mem_cons_self _ _)
    have hrest := ih (fun m hm => h m (List.mem_cons_of_mem x hm))
    unfold classifyModels
    rw [hrest]
    unfold blockedAt at hx
    cases hg : trackerGet tr x with
    | some info =>
      rw [hg] at hx
      simp only [hg]
      rw [if_neg]
      intro hb
      simp [hb] at hx
    | none => simp [hg]

end GeminiServiceRL

/-- Claim C4: a 429 failure with a Retry-After header of ra seconds sets
the tracker entry of that model to next-available-time now + ra * 1000
milliseconds (now + 60000 when the header is absent); a successful call
deletes the model entry; getAvailableModels classifies a model as
rate-limited exactly when an entry exists whose next-available time is
strictly greater than now (an expired entry is treated as available with
no explicit transition); hence a model limited for 30 seconds is in the
limited list strictly within those 30 seconds and in the available list
from 30 seconds on, while every other model stays available throughout;
and the generate loop integrates these updates (shown on an oracle whose
first model fails with a 30-second 429 and whose second succeeds). -/
theorem c4_rate_limit_tracker :
    (∀ (tr : GeminiServiceRL.Tracker) (m : String) (now : Nat) (ra : Option Nat),
      GeminiServiceRL.trackerGet (GeminiServiceRL.record429 tr m now ra) m =
        some { model := m, nextAvailableTime := now + GeminiServiceRL.retryMillis ra,
               retryAfterSeconds := some ((GeminiServiceRL.retryMillis ra + 999) / 1000) })
  ∧ ((∀ s : Nat, GeminiServiceRL.retryMillis (some s) = s * 1000) ∧
      GeminiServiceRL.retryMillis none = 60000)
  ∧ (∀ (tr : GeminiServiceRL.Tracker) (m : String),
      GeminiServiceRL.trackerGet (GeminiServiceRL.trackerDelete tr m) m = none)
  ∧ (∀ (tr : GeminiServiceRL.Tracker) (now : Nat) (m : String),
      m ∈ (GeminiServiceRL.getAvailableModels tr now).1 ↔
        m ∈ GeminiServiceRL.GEMINI_MODELS ∧ GeminiServiceRL.blockedAt tr now m = false)
  ∧ (∀ (tr : GeminiServiceRL.Tracker) (now : Nat) (info : GeminiServiceRL.RateLimitInfo),
      info ∈ (GeminiServiceRL.getAvailableModels tr now).2 ↔
        ∃ m, m ∈ GeminiServiceRL.GEMINI_MODELS ∧ GeminiServiceRL.trackerGet tr m = some info ∧
          info.nextAvailableTime > now)
  ∧ (∀ now t : Nat, t < now + 30000 →
      ("gemini-2.5-pro" ∉
          (GeminiServiceRL.getAvailableModels
            (GeminiServiceRL.record429 [] "gemini-2.5-pro" now (some 30)) t).1)
      ∧ (∃ info, info ∈ (GeminiServiceRL.getAvailableModels
            (GeminiServiceRL.record429 [] "gemini-2.5-pro" now (some 30)) t).2 ∧
          info.model = "gemini-2.5-pro" ∧ info.nextAvailableTime = now + 30000)
      ∧ (∀ m, m ∈ GeminiServiceRL.GEMINI_MODELS → m ≠ "gemini-2.5-pro" →
          m ∈ (GeminiServiceRL.getAvailableModels
            (GeminiServiceRL.record429 [] "gemini-2.5-pro" now (some 30)) t).1))
  ∧ (∀ now t : Nat, now + 30000 ≤ t →
      GeminiServiceRL.getAvailableModels
          (GeminiServiceRL.record429 [] "gemini-2.5-pro" now (some 30)) t =
        (GeminiServiceRL.GEMINI_MODELS, []))
  ∧ (∀ (inc : Bool) (now : Nat) (tr : GeminiServiceRL.Tracker),
      (GeminiServiceRL.generateGeminiResponse wOracleRL inc now tr).2.1 =
        GeminiServiceRL.trackerDelete
          (GeminiServiceRL.record429 tr "gemini-3-flash-preview" now (some 30))
          "gemini-2.5-flash"
      ∧ GeminiServiceRL.trackerGet
          ((GeminiServiceRL.generateGeminiResponse wOracleRL inc now tr).2.1)
          "gemini-3-flash-preview" =
        some { model := "gemini-3-flash-preview", nextAvailableTime := now + 30000,
               retryAfterSeconds := some 30 }
      ∧ GeminiServiceRL.trackerGet
          ((GeminiServiceRL.generateGeminiResponse wOracleRL inc now tr).2.1)
          "gemini-2.5-flash" = none) := by
  have hset : ∀ (tr : GeminiServiceRL.Tracker) (now : Nat),
      GeminiServiceRL.record429 tr "gemini-2.5-pro" now (some 30) =
        GeminiServiceRL.trackerSet tr "gemini-2.5-pro"
          { model := "gemini-2.5-pro", nextAvailableTime := now + 30000,
            retryAfterSeconds := some 30 } := fun _ _ => rfl
  refine ⟨?_, ⟨fun s => rfl, rfl⟩, ?_, ?_, ?_, ?_, ?_, ?_⟩
  · intro tr m now ra
    exact GeminiServiceRL.trackerGet_set_self tr m _
  · intro tr m
    exact GeminiServiceRL.trackerGet_delete_self tr m
  · intro tr now m
    exact GeminiServiceRL.classify_available_iff tr now GeminiServiceRL.GEMINI_MODELS m
  · intro tr now info
    exact GeminiServiceRL.classify_limited_iff tr now GeminiServiceRL.GEMINI_MODELS info
  · intro now t ht
    have hget : GeminiServiceRL.trackerGet
        (GeminiServiceRL.record429 [] "gemini-2.5-pro" now (some 30)) "gemini-2.5-pro" =
        some { model := "gemini-2.5-pro", nextAvailableTime := now + 30000,
               retryAfterSeconds := some 30 } := by
      rw [hset]
      exact GeminiServiceRL.trackerGet_set_self [] "gemini-2.5-pro" _
    have hblocked : GeminiServiceRL.blockedAt
        (GeminiServiceRL.record429 [] "gemini-2.5-pro" now (some 30)) t "gemini-2.5-pro" = true := by
      simp [GeminiServiceRL.blockedAt, hget]
      exact ht
    refine ⟨?_, ?_, ?_⟩
    · intro hmem
      have h2 := (GeminiServiceRL.classify_available_iff _ t
        GeminiServiceRL.GEMINI_MODELS "gemini-2.5-pro").mp hmem
      rw [hblocked] at h2
      cases h2.2
    · refine ⟨⟨"gemini-2.5-pro", now + 30000, some 30⟩, ?_, rfl, rfl⟩
      refine (GeminiServiceRL.classify_limited_iff _ t GeminiServiceRL.GEMINI_MODELS _).mpr
        ⟨"gemini-2.5-pro", by decide, hget, ht⟩
    · intro m hm hne
      have hgm : GeminiServiceRL.trackerGet
          (GeminiServiceRL.record429 [] "gemini-2.5-pro" now (some 30)) m = none := by
        rw [hset]
        rw [GeminiServiceRL.trackerGet_set_ne [] "gemini-2.5-pro" m _ hne]
        rfl
      exact (GeminiServiceRL.classify_available_iff _ t GeminiServiceRL.GEMINI_MODELS m).mpr
        ⟨hm, by simp [GeminiServiceRL.blockedAt, hgm]⟩
  · intro now t ht
    apply GeminiServiceRL.classify_all_unblocked
    intro m hm
    by_cases hme : m = "gemini-2.5-pro"
    · subst hme
      have hget : GeminiServiceRL.trackerGet
          (GeminiServiceRL.record429 [] "gemini-2.5-pro" now (some 30)) "gemini-2.5-pro" =
          some { model := "gemini-2.5-pro", nextAvailableTime := now + 30000,
                 retryAfterSeconds := some 30 } := by
        rw [hset]
        exact GeminiServiceRL.trackerGet_set_self [] "gemini-2.5-pro" _
      simp [GeminiServiceRL.blockedAt, hget]
      omega
    · have hgm : GeminiServiceRL.trackerGet
          (GeminiServiceRL.record429 [] "gemini-2.5-pro" now (some 30)) m = none := by
        rw [hset]
        rw [GeminiServiceRL.trackerGet_set_ne [] "gemini-2.5-pro" m _ hme]
        rfl
      simp [GeminiServiceRL.blockedAt, hgm]
  · intro inc now tr
    have hrun : (GeminiServiceRL.generateGeminiResponse wOracleRL inc now tr).2.1 =
        GeminiServiceRL.trackerDelete
          (GeminiServiceRL.record429 tr "gemini-3-flash-preview" now (some 30))
          "gemini-2.5-flash" := by
      simp [GeminiServiceRL.generateGeminiResponse, GeminiServiceRL.GEMINI_MODELS,
        GeminiServiceRL.runModelsRL, wOracleRL, GeminiServiceRL.handleFailure]
    refine ⟨hrun, ?_, ?_⟩
    · rw [hrun]
      rw [GeminiServiceRL.trackerGet_delete_ne _ "gemini-2.5-flash" "gemini-3-flash-preview"
        (by decide)]
      exact GeminiServiceRL.trackerGet_set_self tr "gemini-3-flash-preview" _
    · rw [hrun]
      exact GeminiServiceRL.trackerGet_delete_self _ "gemini-2.5-flash"

/-- Witness for C4: concretely, a 30-second rate limit recorded at time 0
keeps gemini-2.5-pro out of the available list at 10 seconds and the full
list is available again at 31 seconds. -/
theorem c4_rate_limit_tracker_witness :
    (10000 < 0 + 30000) ∧ (0 + 30000 ≤ 31000) ∧
    ("gemini-2.5-pro" ∉
      (GeminiServiceRL.getAvailableModels
        (GeminiServiceRL.record429 [] "gemini-2.5-pro" 0 (some 30)) 10000).1) ∧
    (GeminiServiceRL.getAvailableModels
        (GeminiServiceRL.record429 [] "gemini-2.5-pro" 0 (some 30)) 31000 =
      (GeminiServiceRL.GEMINI_MODELS, [])) :=
  ⟨by decide, by decide,
    (c4_rate_limit_tracker.2.2.2.2.2.1 0 10000 (by decide)).1,
    c4_rate_limit_tracker.2.2.2.2.2.2.1 0 31000 (by decide)⟩

/-- Claim C7: in the streaming path, a fragment parsed as a tool call with
name N and arguments A produces, in order, the [TOOL_CALL] N marker, then
[TOOL_RESULT_BEGIN] N, the handler result, [TOOL_RESULT_END] N, then the
full text of exactly one follow-up generation call whose prompt appends
the tool result, as a single fragment, followed by the remaining original
fragments in arrival order and the sentinel; a fragment that does not
parse as a tool call is forwarded verbatim; and an unknown tool name gets
the generic echo result, never an error (the handler is total). -/
theorem c7_tool_call_sequence
    (cfStream : Routes.CFRequest → Routes.StreamOutcome)
    (cfGenerate : Routes.CFRequest → Except String Routes.CFResponse)
    (gemStream : List String × Option String)
    (user : Routes.UserProfileVal) (question : String)
    (pre post : List Routes.Chunk) (c : Routes.Chunk)
    (name : String) (args : StrMap) (f : Routes.CFResponse)
    (himg : user.image = none)
    (hr : Routes.hasReasoning question = true)
    (hstream : cfStream
        { prompt := PromptsI18n.getSystemPrompt user.profile ++ "\n\n" ++ question,
          model := Routes.reasoningModel, imageData := none } =
      Except.ok (pre ++ c :: post, none))
    (htool : Routes.toolCallOf c = some (name, args))
    (hfollow : cfGenerate (Routes.mkFollowReasoning
        (PromptsI18n.getSystemPrompt user.profile ++ "\n\n" ++ question) name
        (ToolHandlers.handleToolCall name args)) = Except.ok f) :
    ((Routes.streamSurveyEndpoint cfStream cfGenerate gemStream user question).events =
      pre.flatMap (Routes.chunkEvents cfGenerate (Routes.mkFollowReasoning
          (PromptsI18n.getSystemPrompt user.profile ++ "\n\n" ++ question))) ++
        (["[TOOL_CALL] " ++ name, "[TOOL_RESULT_BEGIN] " ++ name,
          ToolHandlers.handleToolCall name args, "[TOOL_RESULT_END] " ++ name, f.text] ++
          (post.flatMap (Routes.chunkEvents cfGenerate (Routes.mkFollowReasoning
              (PromptsI18n.getSystemPrompt user.profile ++ "\n\n" ++ question))) ++ ["[DONE]"])))
  ∧ (Routes.chunkFollowReqs (Routes.mkFollowReasoning
        (PromptsI18n.getSystemPrompt user.profile ++ "\n\n" ++ question)) c =
      [Routes.mkFollowReasoning (PromptsI18n.getSystemPrompt user.profile ++ "\n\n" ++ question)
        name (ToolHandlers.handleToolCall name args)])
  ∧ ((Routes.mkFollowReasoning (PromptsI18n.getSystemPrompt user.profile ++ "\n\n" ++ question)
        name (ToolHandlers.handleToolCall name args)).prompt =
      (PromptsI18n.getSystemPrompt user.profile ++ "\n\n" ++ question) ++ "\n\nTool " ++ name ++
        " result:\n" ++ ToolHandlers.handleToolCall name args)
  ∧ (∀ c2 : Routes.Chunk, Routes.toolCallOf c2 = none →
      Routes.chunkEvents cfGenerate (Routes.mkFollowReasoning
        (PromptsI18n.getSystemPrompt user.profile ++ "\n\n" ++ question)) c2 = [c2.raw])
  ∧ (∀ (nm : String) (as : StrMap), nm ∉ ToolHandlers.knownTools →
      ToolHandlers.handleToolCall nm as =
        "Tool " ++ nm ++ " called with args: " ++ stringifyMap as) := by
  refine ⟨?_, ?_, ?_, ?_, ?_⟩
  · simp only [Routes.streamSurveyEndpoint, himg, hr, if_true, hstream]
    simp [Routes.chunkEvents, htool, hfollow]
  · simp [Routes.chunkFollowReqs, htool]
  · rfl
  · intro c2 h
    simp [Routes.chunkEvents, h]
  · intro nm as hnm
    unfold ToolHandlers.handleToolCall
    split <;> simp_all [ToolHandlers.knownTools]

/-- Witness for C7: a reasoning-routed stream delivering one web_search
tool-call chunk produces exactly the marker, result-wrapper, follow-up
text and sentinel sequence. -/
theorem c7_tool_call_sequence_witness :
    wPlainProfile.image = none ∧
    Routes.hasReasoning "please explain" = true ∧
    Routes.toolCallOf wToolChunk = some ("web_search", [("query", "x")]) ∧
    (Routes.streamSurveyEndpoint wCFStreamTool wCFOk ([], none) wPlainProfile
        "please explain").events =
      ["[TOOL_CALL] web_search", "[TOOL_RESULT_BEGIN] web_search",
       ToolHandlers.handleToolCall "web_search" [("query", "x")],
       "[TOOL_RESULT_END] web_search", "cf-answer", "[DONE]"] :=
  ⟨rfl, by decide, by decide,
    (c7_tool_call_sequence wCFStreamTool wCFOk ([], none) wPlainProfile "please explain"
      [] [] wToolChunk "web_search" [("query", "x")]
      { text := "cf-answer", model := Routes.reasoningModel }
      rfl (by decide) rfl (by decide) rfl).1⟩

theorem listGetLast_append_single {α : Type} (l : List α) (a : α) :
    (l ++ [a]).getLast? = some a := by
  simp

/-- Claim C8 counterexample: with an image attached and a Cloudflare
stream call that throws at acquisition (as when the Cloudflare token is
not configured), the handler reaches its outer catch and answers with a
500 error; no event at all is written, so the stream does not end with the
[DONE] sentinel. -/
theorem c8_counterexample : ¬ claimC8 := by
  intro h
  have h2 := h cexCFStreamDown wCFOk ([], none) wImageProfile "hi"
  have h3 : (Routes.streamSurveyEndpoint cexCFStreamDown wCFOk ([], none) wImageProfile
      "hi").events = [] := by decide
  rw [h3] at h2
  simp at h2

/-- Claim C8 (corrected): a streaming response ends with exactly the
[DONE] sentinel as its last event whenever the handler does not fall into
its outer catch (every success path appends the sentinel once), but a
stream whose upstream acquisition or iteration throws is terminated by the
outer catch with a 500 error and no sentinel; separately, the idle
watchdog fires exactly when more than 3 minutes (180000 ms) have passed
since the last activity, and when it fires it emits exactly the [DONE]
sentinel and closes the stream. -/
theorem c8_sentinel_amended :
    (∀ (cfStream : Routes.CFRequest → Routes.StreamOutcome)
       (cfGenerate : Routes.CFRequest → Except String Routes.CFResponse)
       (gemStream : List String × Option String)
       (user : Routes.UserProfileVal) (question : String),
      (Routes.streamSurveyEndpoint cfStream cfGenerate gemStream user question).errored = false →
      (Routes.streamSurveyEndpoint cfStream cfGenerate gemStream user question).events.getLast? =
        some "[DONE]")
  ∧ (∀ l n : Nat, (Routes.idleCheckEvents l n ≠ [] ↔ n - l > 1000 * 60 * 3)
      ∧ (Routes.idleCheckEvents l n ≠ [] → Routes.idleCheckEvents l n = ["[DONE]"])) := by
  constructor
  · intro cfStream cfGenerate gemStream user question herr
    revert herr
    cases him : user.image with
    | some img =>
      simp only [Routes.streamSurveyEndpoint, him]
      split
      · intro herr; simp at herr
      · split
        · intro herr; simp at herr
        · intro _; simp [listGetLast_append_single]
    | none =>
      by_cases hr : Routes.hasReasoning question = true
      · simp only [Routes.streamSurveyEndpoint, him, hr, if_true]
        split
        · intro herr; simp at herr
        · split
          · intro herr; simp at herr
          · intro _; simp [listGetLast_append_single]
      · simp only [Routes.streamSurveyEndpoint, him]
        rw [if_neg hr]
        split
        · intro _; simp [listGetLast_append_single]
        · split
          · intro herr; simp at herr
          · split
            · intro herr; simp at herr
            · intro _; simp [listGetLast_append_single]
  · intro l n
    constructor
    · unfold Routes.idleCheckEvents Routes.idleCheckFires Routes.idleWindowMs
      by_cases hgt : n - l > 1000 * 60 * 3
      · simp [hgt]
      · simp [hgt]
    · intro hne
      unfold Routes.idleCheckEvents at hne ⊢
      by_cases hf : Routes.idleCheckFires l n = true
      · simp [hf]
      · simp [hf] at hne

/-- Witness for the corrected C8: a completed image-route stream ends with
the sentinel, and a watchdog tick 200 seconds after the last activity
fires the sentinel. -/
theorem c8_sentinel_amended_witness :
    (Routes.streamSurveyEndpoint wCFStreamPlain wCFOk ([], none) wImageProfile "hi").errored =
      false ∧
    (Routes.streamSurveyEndpoint wCFStreamPlain wCFOk ([], none) wImageProfile
        "hi").events.getLast? = some "[DONE]" ∧
    (Routes.idleCheckEvents 0 200000 ≠ [] → Routes.idleCheckEvents 0 200000 = ["[DONE]"]) :=
  ⟨by decide,
    c8_sentinel_amended.1 wCFStreamPlain wCFOk ([], none) wImageProfile "hi" (by decide),
    (c8_sentinel_amended.2 0 200000).2⟩

/-- Claim C9 counterexample: a profile whose demographics and preferences
are both present but empty mappings still produces both labeled blocks
(the source guards on JS truthiness of the field, and an empty object is
truthy), so the profile context is not free of labeled blocks. -/
theorem c9_counterexample : ¬ claimC9 := by
  intro h
  have h2 := h { demographics := some [], preferences := some [] } rfl rfl
  exact absurd h2 (by decide)

/-- Claim C9 (corrected): the built profile context contains the labeled
demographics block exactly when the demographics field is present — even
when it is an empty mapping — and likewise for preferences; only a profile
with both fields absent produces an empty context with neither labeled
block; the builder is a total function, so absent fields can never raise. -/
theorem c9_profile_blocks_amended (p : PromptsI18n.Profile) :
    (∀ s, s ∈ PromptsI18n.profileSections p ↔
      ((∃ d, p.demographics = some d ∧ s = "Demografía: " ++ stringifyMap d) ∨
       (∃ pr, p.preferences = some pr ∧ s = "Preferencias: " ++ stringifyMap pr)))
  ∧ ((∃ d, p.demographics = some d ∧
        ("Demografía: " ++ stringifyMap d) ∈ PromptsI18n.profileSections p) ↔
      p.demographics.isSome)
  ∧ ((∃ pr, p.preferences = some pr ∧
        ("Preferencias: " ++ stringifyMap pr) ∈ PromptsI18n.profileSections p) ↔
      p.preferences.isSome)
  ∧ (p.demographics = none → p.preferences = none →
      PromptsI18n.buildProfileContext p = "") := by
  obtain ⟨dOpt, pOpt⟩ := p
  cases dOpt <;> cases pOpt <;>
    simp [PromptsI18n.profileSections, PromptsI18n.buildProfileContext] <;> rfl

/-- Witness for the corrected C9: a profile with empty present mappings
has both labeled blocks among its sections. -/
theorem c9_profile_blocks_amended_witness :
    (PromptsI18n.Profile.demographics { demographics := some [], preferences := some [] } =
      some []) ∧
    (("Demografía: " ++ stringifyMap []) ∈
      PromptsI18n.profileSections { demographics := some [], preferences := some [] }) :=
  ⟨rfl,
    ((c9_profile_blocks_amended { demographics := some [], preferences := some [] }).1
      ("Demografía: " ++ stringifyMap [])).mpr (Or.inl ⟨[], rfl, rfl⟩)⟩

/-- Claim C10 counterexample: with the in-memory storage, getUser returns
the stored object by reference, so attaching the request image onto the
fetched user leaves the image on the stored profile entity after the
request completes — starting from a store in which no user carries an
image, the generate endpoint ends with the requested user carrying one. -/
theorem c10_counterexample : ¬ claimC10 := by
  intro h
  have h2 := h wCFOk cexGeminiDown [wStoredUser] [] 1 "hi"
      (some { mimeType := "image/png", data := "QUJD" }) (by decide)
  have hmem : ({ wStoredUser with image := some { mimeType := "image/png", data := "QUJD" } } :
      Routes.StoredUser) ∈
      (Routes.generateEndpoint wCFOk cexGeminiDown [wStoredUser] [] 1 "hi"
        (some { mimeType := "image/png", data := "QUJD" })).store := by decide
  have h3 := h2 _ hmem
  simp at h3

/-- Claim C10 (corrected): the generation call itself never mutates the
profile — after the request, the only change to the stored users is the
image field of the requested user, which now holds the request image when
one was supplied; every other user is unchanged, every other field of the
requested user is unchanged, and nothing image-derived (nor the answer)
is written to the survey records. -/
theorem c10_profile_mutation_amended
    (cf : Routes.CFRequest → Except String Routes.CFResponse)
    (gemini : Unit → Except String GeminiService.GeminiResponse)
    (store : List Routes.StoredUser) (records : List Routes.SurveyRecord)
    (userId : Nat) (question : String) (image : Option Routes.ImageData)
    (u : Routes.StoredUser)
    (hq : question ≠ "")
    (hfind : store.find? (fun v => decide (v.id = userId)) = some u) :
    ((Routes.generateEndpoint cf gemini store records userId question image).store =
      store.map (fun v => if v.id = userId then Routes.attachedUser u image else v))
  ∧ (∀ v ∈ (Routes.generateEndpoint cf gemini store records userId question image).store,
      v.id ≠ userId → v ∈ store)
  ∧ (∀ v ∈ (Routes.generateEndpoint cf gemini store records userId question image).store,
      v.id = userId →
        v.username = u.username ∧ v.language = u.language ∧
        v.demographics = u.demographics ∧ v.preferences = u.preferences)
  ∧ (∀ rec ∈ (Routes.generateEndpoint cf gemini store records userId question image).records,
      rec ∈ records ∨
        (rec.answer = none ∧ rec.userId = userId ∧ rec.question = question)) := by
  have hid : u.id = userId := by
    have h2 := List.find?_some hfind
    exact of_decide_eq_true h2
  have hu2id : (Routes.attachedUser u image).id = userId := by
    cases image <;> simpa [Routes.attachedUser] using hid
  have hstore : (Routes.generateEndpoint cf gemini store records userId question image).store =
      store.map (fun v => if v.id = userId then Routes.attachedUser u image else v) := by
    unfold Routes.generateEndpoint
    rw [if_neg hq, hfind]
    dsimp only
    split <;> rfl
  refine ⟨hstore, ?_, ?_, ?_⟩
  · intro v hv hne
    rw [hstore] at hv
    obtain ⟨w, hw, rfl⟩ := List.mem_map.mp hv
    by_cases hwid : w.id = userId
    · rw [if_pos hwid] at hne ⊢
      exact absurd hu2id hne
    · rw [if_neg hwid]
      exact hw
  · intro v hv hvid
    rw [hstore] at hv
    obtain ⟨w, hw, rfl⟩ := List.mem_map.mp hv
    by_cases hwid : w.id = userId
    · rw [if_pos hwid]
      cases image <;> simp [Routes.attachedUser]
    · rw [if_neg hwid] at hvid
      exact absurd hvid hwid
  · intro rec hrec
    unfold Routes.generateEndpoint at hrec
    rw [if_neg hq, hfind] at hrec
    dsimp only at hrec
    rcases hgen : (Routes.generateSurveyResponse cf gemini
        (Routes.profileOf (Routes.attachedUser u image)) question).1 with e | r
    · simp only [hgen] at hrec
      exact Or.inl hrec
    · simp only [hgen] at hrec
      simp only [List.mem_append, List.mem_singleton] at hrec
      rcases hrec with hin | rfl
      · exact Or.inl hin
      · exact Or.inr ⟨rfl, rfl, rfl⟩

/-- Witness for the corrected C10: concretely, the demo store after an
image-carrying request equals the original store with the image attached
to the requested user. -/
theorem c10_profile_mutation_amended_witness :
    ("hi" ≠ "") ∧
    ([wStoredUser].find? (fun v => decide (v.id = 1)) = some wStoredUser) ∧
    (Routes.generateEndpoint wCFOk cexGeminiDown [wStoredUser] [] 1 "hi"
        (some { mimeType := "image/png", data := "QUJD" })).store =
      [wStoredUser].map (fun v => if v.id = 1 then
        { wStoredUser with image := some { mimeType := "image/png", data := "QUJD" } } else v) :=
  ⟨by decide, by decide,
    (c10_profile_mutation_amended wCFOk cexGeminiDown [wStoredUser] [] 1 "hi"
      (some { mimeType := "image/png", data := "QUJD" }) wStoredUser (by decide) (by decide)).1⟩

end SurveyIA
